import Mathlib

/-
  Verification of the scroll-interruption core of Hellanzb/Logging.py.

  The module coordinates a high-frequency "scroll" output stream with
  occasional higher-priority log messages.  Shared state consists of a
  scroll lock, a scroll-active flag, a scroll-interrupted flag, a pending
  queue of records guarded by a monitor (mutex + condition variable) and a
  notified flag.  A dedicated ScrollInterrupter thread drains the queue and
  debounces the interruption with a grace timeout.

  The embedding below is a sequential shallow embedding: each Python
  function becomes a pure function on an explicit state record.  Blocking
  waits are modelled by supplying, as an explicit argument, the list of
  records that producers enqueue while the worker is suspended in that
  wait.  Python exceptions are modelled by an `Option PyError` component;
  operations that mutate state before raising return the partially mutated
  state alongside the error, matching Python's semantics.
-/

namespace Hellanzb

/-- Python exceptions relevant to Logging.py: the classes named in the
`except` clauses of `ScrollInterrupter.run`, plus a catch-all for any other
unexpected exception (carrying its message, as produced by `str(e)`). -/
inductive PyError where
  | attributeError
  | nameError
  | systemExit
  | otherError (msg : String)
deriving DecidableEq, Repr

/-- A log record.  `levelno` and `msg` are the fields used by Logging.py.
`hasHandler` models whether `record.scrollableHandler` has been set (the
back-reference attached by `queueScrollInterrupt`).  `emitExc` models an
unexpected exception raised by the underlying stream write when this
record is emitted (`none` for a normal record); StreamHandler.emit catches
it internally, see `streamEmit`. -/
structure Record where
  levelno : Nat
  msg : String
  hasHandler : Bool := false
  emitExc : Option PyError := none
deriving DecidableEq, Repr

/-- The `ScrollableHandler.scrollLock` class attribute.  `scrollEnd`
deletes the attribute (`del`), `init` sets it to `None`, and `scrollBegin`
sets it to a fresh `threading.Lock`; a lock is either held or free. -/
inductive ScrollLockAttr where
  | deleted
  | pyNone
  | lock (held : Bool)
deriving DecidableEq, Repr

/-- The process-wide shared state of the logging subsystem: the class
attributes of `ScrollableHandler` and `ScrollInterrupter`, the shutdown
indicator, the two console streams, and a count of started worker threads. -/
structure LogState where
  scrollFlag : Bool
  scrollInterrupted : Bool
  scrollLockAttr : ScrollLockAttr
  pendingLogRecords : List Record
  notifiedMonitor : Bool
  pendingMutexHeld : Bool
  shutdown : Bool
  stdoutBuf : List String
  stderrBuf : List String
  workerCount : Nat
deriving DecidableEq, Repr

/-- The SCROLL log level (class variable of ScrollableHandler). -/
def ScrollableHandler.SCROLL : Nat := 11

/-- logging.DEBUG -/
def DEBUG_LEVEL : Nat := 10

/-- logging.WARNING -/
def WARNING_LEVEL : Nat := 30

/-- How many seconds the ScrollInterrupter delays the scroll for
(`Hellanzb.Logging.SCROLL_INTERRUPT_WAIT`, set by `init`). -/
def SCROLL_INTERRUPT_WAIT : Nat := 5

/-- The OutFilter installed on the stdout handler by `init`: reject records
above WARNING, and reject DEBUG records unless debug mode is on. -/
def outFilter (debugMode : Bool) (r : Record) : Bool :=
  if WARNING_LEVEL < r.levelno then false
  else if r.levelno == DEBUG_LEVEL && !debugMode then false
  else true

/-- The text Handler.handleError prints for a caught exception (stands in
for the traceback written to sys.stderr). -/
def tracebackText : PyError → String
  | PyError.attributeError => "AttributeError"
  | PyError.nameError => "NameError"
  | PyError.systemExit => "SystemExit"
  | PyError.otherError m => m

/-- logging.StreamHandler.emit: write the record's message to the handler's
stream (stdout for the scrollable out handler).  The library wraps the
write in a bare except clause: an unexpected failure of the write (the
record's `emitExc` field) is caught inside emit and routed to
Handler.handleError, which prints the traceback to sys.stderr (the default
raiseExceptions is set) and returns normally; only KeyboardInterrupt and
SystemExit are re-raised. -/
def streamEmit (st : LogState) (r : Record) : LogState × Option PyError :=
  match r.emitExc with
  | some PyError.systemExit => (st, some PyError.systemExit)
  | some e => ({ st with stderrBuf := st.stderrBuf ++ [tracebackText e] }, none)
  | none => ({ st with stdoutBuf := st.stdoutBuf ++ [r.msg] }, none)

/-- ScrollableHandler.emitSynchronized: acquire the handler's own lock,
emit, release.  The handler lock serializes ordinary console contention and
is uncontended in this sequential model. -/
def emitSynchronized (st : LogState) (r : Record) : LogState × Option PyError :=
  streamEmit st r

/-- The record with its `scrollableHandler` back-reference attached, as done
at the top of `queueScrollInterrupt`. -/
def markHandled (r : Record) : Record :=
  { r with hasHandler := true }

/-- ScrollableHandler.queueScrollInterrupt: attach the back-reference, then
under the pending monitor's mutex append the record to the pending list,
notify the condition variable and set the notified flag. -/
def queueScrollInterrupt (st : LogState) (r : Record) : LogState :=
  { st with
      pendingLogRecords := st.pendingLogRecords ++ [markHandled r]
      notifiedMonitor := true }

/-- ScrollableHandler.handle: scroll-level records are emitted only if the
scroll lock can be acquired without blocking (dropped otherwise); other
records are queued for the ScrollInterrupter when scroll is on, and emitted
directly when it is off.  Returns the new state, a possible exception, and
the filter result `rv` (meaningful only when no exception is raised). -/
def ScrollableHandler.handle (debugMode : Bool) (st : LogState) (r : Record) :
    LogState × Option PyError × Bool :=
  let rv := outFilter debugMode r
  if rv then
    if r.levelno == ScrollableHandler.SCROLL then
      match st.scrollLockAttr with
      | ScrollLockAttr.lock false =>
          let st := { st with scrollLockAttr := ScrollLockAttr.lock true,
                              scrollInterrupted := false }
          let (st, e) := emitSynchronized st r
          ({ st with scrollLockAttr := ScrollLockAttr.lock false }, e, true)
      | ScrollLockAttr.lock true =>
          (st, none, true)
      | _ =>
          (st, some PyError.attributeError, true)
    else
      if st.scrollFlag then
        (queueScrollInterrupt st r, none, true)
      else
        let (st, e) := emitSynchronized st r
        (st, e, true)
  else
    (st, none, false)

/-- ScrollInterrupter.format: add spaces to the scroll-interrupting log
message; on the first interrupting message (scrollInterrupted false) prepend
four blank lines and set the flag, otherwise only append two. -/
def ScrollInterrupter.format (st : LogState) (r : Record) : LogState × Record :=
  if !st.scrollInterrupted then
    ({ st with scrollInterrupted := true },
     { r with msg := "\n\n\n\n" ++ r.msg ++ "\n\n" })
  else
    (st, { r with msg := r.msg ++ "\n\n" })

/-- ScrollInterrupter.handle for a single queued record: acquire the
record's scrollableHandler lock (AttributeError if the back-reference is
missing), format, then emit back through the parent handler; the handler
lock is released in a finally block. -/
def ScrollInterrupter.handleRecord (st : LogState) (r : Record) :
    LogState × Option PyError :=
  if r.hasHandler then
    let (st, r') := ScrollInterrupter.format st r
    streamEmit st r'
  else
    (st, some PyError.attributeError)

/-- The `for record in records: self.handle(record)` loop of waitLoop: emit
the drained batch in order; an exception raised by one record aborts the
loop and propagates, leaving the remaining records unemitted. -/
def drainBatch : LogState → List Record → LogState × Option PyError
  | st, [] => (st, none)
  | st, r :: rs =>
    match ScrollInterrupter.handleRecord st r with
    | (st', none) => drainBatch st' rs
    | (st', some e) => (st', some e)

/-- The records producers enqueue while the worker is suspended in its two
waits: `idleArrivals` arrive during the untimed `self.wait()` of the idle
phase, `graceArrivals` during the grace-timeout wait. -/
structure IterInput where
  idleArrivals : List Record
  graceArrivals : List Record
deriving DecidableEq, Repr

/-- Producers run `queueScrollInterrupt` once per arriving record, in
arrival order, while the condition wait has released the pending mutex. -/
def applyArrivals (st : LogState) (rs : List Record) : LogState :=
  rs.foldl queueScrollInterrupt st

/-- ScrollInterrupter.wait with timeout None: acquire the pending monitor,
wait on the condition (producers enqueue `arrivals` while the mutex is
released by the wait), clear the notified flag if it was set, release the
monitor. -/
def ScrollInterrupter.wait (st : LogState) (arrivals : List Record) : LogState :=
  let st := applyArrivals st arrivals
  if st.notifiedMonitor then { st with notifiedMonitor := false } else st

/-- One pass of the body of ScrollInterrupter.waitLoop.  Takes the state,
the local `hadQuickWait` flag, and the records arriving during the waits;
returns the new state, the new `hadQuickWait`, and a possible exception
(SystemExit when the shutdown indicator is set, AttributeError when a lock
attribute is missing, or an emission failure).  On the continuation path
(notified during the grace wait) neither the scroll lock nor the pending
mutex is released; on the timeout path both are released. -/
def waitLoopIter (st : LogState) (hadQuickWait : Bool) (inp : IterInput) :
    LogState × Bool × Option PyError :=
  if st.shutdown then (st, hadQuickWait, some PyError.systemExit)
  else
    let step1 : LogState × Option PyError :=
      if !hadQuickWait then
        let st := ScrollInterrupter.wait st inp.idleArrivals
        match st.scrollLockAttr with
        | ScrollLockAttr.lock _ =>
            ({ st with scrollLockAttr := ScrollLockAttr.lock true,
                       pendingMutexHeld := true }, none)
        | _ => (st, some PyError.attributeError)
      else (st, none)
    match step1 with
    | (st, some e) => (st, false, some e)
    | (st, none) =>
      let records := st.pendingLogRecords
      let st := { st with pendingLogRecords := [] }
      match drainBatch st records with
      | (st, some e) => (st, false, some e)
      | (st, none) =>
        let st := { st with pendingMutexHeld := false }
        let st := applyArrivals st inp.graceArrivals
        let st := { st with pendingMutexHeld := true }
        if st.notifiedMonitor then
          ({ st with notifiedMonitor := false }, true, none)
        else
          match st.scrollLockAttr with
          | ScrollLockAttr.lock _ =>
              ({ st with pendingMutexHeld := false,
                         scrollLockAttr := ScrollLockAttr.lock false }, false, none)
          | _ => ({ st with pendingMutexHeld := false }, false,
                  some PyError.attributeError)

/-- Iterating ScrollInterrupter.waitLoop over a list of wait inputs,
stopping when an exception propagates out of the while loop. -/
def waitLoopRun : LogState → Bool → List IterInput → LogState × Bool × Option PyError
  | st, hqw, [] => (st, hqw, none)
  | st, hqw, inp :: inps =>
    match waitLoopIter st hqw inp with
    | (st', hqw', none) => waitLoopRun st' hqw' inps
    | (st', hqw', some e) => (st', hqw', some e)

/-- ScrollInterrupter.run: call waitLoop (hadQuickWait starts False); pass
on AttributeError, NameError and SystemExit; print any other exception to
standard output (the Python `print` statement) and return, ending the
thread.  No path re-enters the loop. -/
def ScrollInterrupter.run (st : LogState) (inps : List IterInput) : LogState :=
  match waitLoopRun st false inps with
  | (st', _, none) => st'
  | (st', _, some PyError.attributeError) => st'
  | (st', _, some PyError.nameError) => st'
  | (st', _, some PyError.systemExit) => st'
  | (st', _, some (PyError.otherError m)) =>
      { st' with stdoutBuf := st'.stdoutBuf ++ ["Error in ScrollInterrupter: " ++ m] }

/-- scrollBegin: set the scroll flag and install a fresh scroll lock. -/
def scrollBegin (st : LogState) : LogState :=
  { st with scrollFlag := true, scrollLockAttr := ScrollLockAttr.lock false }

/-- scrollEnd: clear the scroll flag, then `del ScrollableHandler.scrollLock`;
the del raises AttributeError when the attribute no longer exists (the flag
assignment has already taken effect by then). -/
def scrollEnd (st : LogState) : LogState × Option PyError :=
  let st := { st with scrollFlag := false }
  match st.scrollLockAttr with
  | ScrollLockAttr.deleted => (st, some PyError.attributeError)
  | _ => ({ st with scrollLockAttr := ScrollLockAttr.deleted }, none)

/-- init: reset all shared coordination state (scroll flag off, interrupted
flag true, scroll lock attribute None, empty pending list, notified flag
false) and start a new ScrollInterrupter thread.  There is no guard against
being called again. -/
def init (st : LogState) : LogState :=
  { st with
      scrollFlag := false
      scrollInterrupted := true
      scrollLockAttr := ScrollLockAttr.pyNone
      pendingLogRecords := []
      notifiedMonitor := false
      workerCount := st.workerCount + 1 }

/-- The process state before `init` has run: no class attributes exist, no
worker thread has been started, both console streams are empty. -/
def freshState : LogState :=
  { scrollFlag := false
    scrollInterrupted := false
    scrollLockAttr := ScrollLockAttr.deleted
    pendingLogRecords := []
    notifiedMonitor := false
    pendingMutexHeld := false
    shutdown := false
    stdoutBuf := []
    stderrBuf := []
    workerCount := 0 }

/-- The synchronization/IO primitives that Logging.py code paths execute,
used to state which paths can suspend the calling thread.  `condWait none`
is an untimed (unbounded) condition wait; `blockingScrollLock` is a
blocking acquisition of the scroll lock; `acquireMutex` is a mutex
acquisition (bounded: the pending mutex is only ever held for bounded
critical sections, every condition wait releases it). -/
inductive PrimOp where
  | acquireMutex
  | releaseMutex
  | appendQueue
  | notifyCond
  | setNotifiedFlag
  | condWait (timeout : Option Nat)
  | tryScrollLock
  | blockingScrollLock
  | releaseScrollLock
  | emitToConsole
deriving DecidableEq, Repr

/-- The primitive operations performed by queueScrollInterrupt, in program
order (Logging.py lines 69-75). -/
def queueScrollInterruptOps : List PrimOp :=
  [PrimOp.acquireMutex, PrimOp.appendQueue, PrimOp.notifyCond,
   PrimOp.setNotifiedFlag, PrimOp.releaseMutex]

/-- Whether a primitive can suspend its caller for an unbounded time:
untimed condition waits and blocking scroll-lock acquisition. -/
def unboundedBlockingOp : PrimOp → Bool
  | PrimOp.condWait none => true
  | PrimOp.blockingScrollLock => true
  | _ => false

/-- The messages the ScrollInterrupter writes for a batch, given the value
of the interrupted flag when the batch starts: the first record of a fresh
interruption gets four leading blank lines, every record gets two trailing
ones. -/
def interruptFormatMsgs : Bool → List Record → List String
  | _, [] => []
  | interrupted, r :: rs =>
    (if interrupted then r.msg ++ "\n\n" else "\n\n\n\n" ++ r.msg ++ "\n\n") ::
      interruptFormatMsgs true rs

/-- The console lines successfully written while a batch is drained, given
the interrupted flag at the start of the batch: a record whose write fails
produces no stdout line, but still consumes the leading padding and sets
the interrupted flag, because format runs before the write. -/
def drainStdoutMsgs : Bool → List Record → List String
  | _, [] => []
  | interrupted, r :: rs =>
    match r.emitExc with
    | none =>
        (if interrupted then r.msg ++ "\n\n" else "\n\n\n\n" ++ r.msg ++ "\n\n") ::
          drainStdoutMsgs true rs
    | some _ => drainStdoutMsgs true rs

/-- The per-record tracebacks that Handler.handleError prints to standard
error while a batch is drained. -/
def drainStderrMsgs : List Record → List String
  | [] => []
  | r :: rs =>
    match r.emitExc with
    | none => drainStderrMsgs rs
    | some e => tracebackText e :: drainStderrMsgs rs

/-- An observable step of the logging subsystem: a caller thread logging a
record through ScrollableHandler.handle, the worker executing one pass of
its wait loop, or a session-boundary call. -/
inductive LogEvent where
  | callerLog (debugMode : Bool) (r : Record)
  | workerIter (hadQuickWait : Bool) (inp : IterInput)
  | beginScroll
  | endScroll
deriving DecidableEq, Repr

/-- The state reached after one event (exceptions leave their partially
mutated state). -/
def stepEvent (st : LogState) : LogEvent → LogState
  | LogEvent.callerLog dm r => (ScrollableHandler.handle dm st r).1
  | LogEvent.workerIter hqw inp => (waitLoopIter st hqw inp).1
  | LogEvent.beginScroll => scrollBegin st
  | LogEvent.endScroll => (scrollEnd st).1

/-- Run a sequence of events. -/
def runEvents (st : LogState) (es : List LogEvent) : LogState :=
  es.foldl stepEvent st

/-- Whether an event is a scroll-level record passing the scroll gate: the
record survives the filter and acquires the free scroll lock, which is the
sole operation that clears the interrupted flag (and, barring an emission
failure, writes the record to the console). -/
def scrollGateAcquires (st : LogState) : LogEvent → Bool
  | LogEvent.callerLog dm r =>
      outFilter dm r && r.levelno == ScrollableHandler.SCROLL &&
        st.scrollLockAttr == ScrollLockAttr.lock false
  | _ => false

/-- Whether a trace contains no scroll-level record that passes the gate. -/
def noScrollWrite : LogState → List LogEvent → Bool
  | _, [] => true
  | st, e :: es => !scrollGateAcquires st e && noScrollWrite (stepEvent st e) es

lemma applyArrivals_spec (st : LogState) (rs : List Record) :
    applyArrivals st rs =
      { st with
          pendingLogRecords := st.pendingLogRecords ++ rs.map markHandled
          notifiedMonitor := st.notifiedMonitor || !rs.isEmpty } := by
  induction rs generalizing st with
  | nil => simp [applyArrivals]
  | cons r rs ih =>
      simp only [applyArrivals, List.foldl_cons] at *
      rw [ih]
      simp [queueScrollInterrupt, List.append_assoc]

lemma drainBatch_ok (st : LogState) (recs : List Record)
    (hok : ∀ r ∈ recs, r.emitExc = none ∧ r.hasHandler = true) :
    drainBatch st recs =
      ({ st with
           stdoutBuf := st.stdoutBuf ++ interruptFormatMsgs st.scrollInterrupted recs
           scrollInterrupted := st.scrollInterrupted || !recs.isEmpty }, none) := by
  induction recs generalizing st with
  | nil => simp [drainBatch, interruptFormatMsgs]
  | cons r rs ih =>
      obtain ⟨hexc, hh⟩ := hok r (List.mem_cons_self r rs)
      have hok' : ∀ x ∈ rs, x.emitExc = none ∧ x.hasHandler = true := by
        intro x hx
        exact hok x (List.mem_cons_of_mem r hx)
      cases hflag : st.scrollInterrupted with
      | false =>
          simp [drainBatch, ScrollInterrupter.handleRecord, ScrollInterrupter.format,
                streamEmit, hh, hexc, hflag, ih _ hok', interruptFormatMsgs]
      | true =>
          simp [drainBatch, ScrollInterrupter.handleRecord, ScrollInterrupter.format,
                streamEmit, hh, hexc, hflag, ih _ hok', interruptFormatMsgs]

lemma wait_spec (st : LogState) (arrivals : List Record) :
    ScrollInterrupter.wait st arrivals =
      { st with
          pendingLogRecords := st.pendingLogRecords ++ arrivals.map markHandled
          notifiedMonitor := false } := by
  unfold ScrollInterrupter.wait
  rw [applyArrivals_spec]
  cases h : st.notifiedMonitor || !arrivals.isEmpty <;> simp [h]

lemma waitLoopIter_continue (st : LogState) (inp : IterInput)
    (hsd : st.shutdown = false)
    (hok : ∀ r ∈ st.pendingLogRecords, r.emitExc = none ∧ r.hasHandler = true)
    (hg : inp.graceArrivals ≠ []) :
    waitLoopIter st true inp =
      ({ st with
           pendingLogRecords := inp.graceArrivals.map markHandled
           notifiedMonitor := false
           pendingMutexHeld := true
           scrollInterrupted := st.scrollInterrupted || !st.pendingLogRecords.isEmpty
           stdoutBuf := st.stdoutBuf
             ++ interruptFormatMsgs st.scrollInterrupted st.pendingLogRecords },
       true, none) := by
  have hge : inp.graceArrivals.isEmpty = false := by
    cases h : inp.graceArrivals with
    | nil => exact absurd h hg
    | cons a l => rfl
  simp [waitLoopIter, hsd, drainBatch_ok _ _ hok, applyArrivals_spec, hge]

lemma waitLoopIter_release (st : LogState) (inp : IterInput)
    (hsd : st.shutdown = false)
    (hlock : st.scrollLockAttr = ScrollLockAttr.lock true)
    (hnot : st.notifiedMonitor = false)
    (hok : ∀ r ∈ st.pendingLogRecords, r.emitExc = none ∧ r.hasHandler = true)
    (hg : inp.graceArrivals = []) :
    waitLoopIter st true inp =
      ({ st with
           pendingLogRecords := []
           pendingMutexHeld := false
           scrollLockAttr := ScrollLockAttr.lock false
           scrollInterrupted := st.scrollInterrupted || !st.pendingLogRecords.isEmpty
           stdoutBuf := st.stdoutBuf
             ++ interruptFormatMsgs st.scrollInterrupted st.pendingLogRecords },
       false, none) := by
  simp [waitLoopIter, hsd, drainBatch_ok _ _ hok, applyArrivals_spec, hg, hnot, hlock]

lemma waitLoopIter_fresh_episode (st : LogState) (inp : IterInput) (b : Bool)
    (hsd : st.shutdown = false)
    (hlock : st.scrollLockAttr = ScrollLockAttr.lock b)
    (hok : ∀ r ∈ st.pendingLogRecords, r.emitExc = none ∧ r.hasHandler = true)
    (hokIdle : ∀ r ∈ inp.idleArrivals, r.emitExc = none)
    (hg : inp.graceArrivals = []) :
    waitLoopIter st false inp =
      ({ st with
           pendingLogRecords := []
           notifiedMonitor := false
           pendingMutexHeld := false
           scrollLockAttr := ScrollLockAttr.lock false
           scrollInterrupted := st.scrollInterrupted
             || !(st.pendingLogRecords ++ inp.idleArrivals.map markHandled).isEmpty
           stdoutBuf := st.stdoutBuf ++ interruptFormatMsgs st.scrollInterrupted
             (st.pendingLogRecords ++ inp.idleArrivals.map markHandled) },
       false, none) := by
  have hok' : ∀ r ∈ st.pendingLogRecords ++ inp.idleArrivals.map markHandled,
      r.emitExc = none ∧ r.hasHandler = true := by
    intro r hr
    rcases List.mem_append.mp hr with h | h
    · exact hok r h
    · rcases List.mem_map.mp h with ⟨x, hx, rfl⟩
      exact ⟨hokIdle x hx, rfl⟩
  simp [waitLoopIter, wait_spec, hsd, applyArrivals_spec, hlock,
        drainBatch_ok _ _ hok', hg]

/-- C1: for a scroll-level record handled while the Scroll-Active Flag is
true, a successful non-blocking acquisition of the scroll lock clears the
interrupted flag, writes the record to the console and releases the lock;
a failed acquisition silently drops the record with no error, no retry and
no state change. -/
theorem scroll_gate_try_lock (dm : Bool) (st : LogState) (r : Record) (held : Bool)
    (hlvl : r.levelno = ScrollableHandler.SCROLL)
    (_hflag : st.scrollFlag = true)
    (hlock : st.scrollLockAttr = ScrollLockAttr.lock held)
    (hemit : r.emitExc = none) :
    (held = false →
      ScrollableHandler.handle dm st r =
        ({ st with scrollInterrupted := false
                   scrollLockAttr := ScrollLockAttr.lock false
                   stdoutBuf := st.stdoutBuf ++ [r.msg] }, none, true)) ∧
    (held = true →
      ScrollableHandler.handle dm st r = (st, none, true)) := by
  constructor <;> rintro rfl <;>
    simp [ScrollableHandler.handle, outFilter, hlvl, hlock, hemit,
          emitSynchronized, streamEmit, ScrollableHandler.SCROLL,
          WARNING_LEVEL, DEBUG_LEVEL]

/-- Witness for C1 at a concrete state: a scroll record written through the
gate right after a session begins, and one dropped while the lock is held. -/
theorem scroll_gate_try_lock_witness :
    ScrollableHandler.handle false (scrollBegin (init freshState))
        { levelno := 11, msg := "s" } =
      ({ scrollBegin (init freshState) with
           scrollInterrupted := false
           scrollLockAttr := ScrollLockAttr.lock false
           stdoutBuf := ["s"] }, none, true) :=
  (scroll_gate_try_lock false (scrollBegin (init freshState))
      { levelno := 11, msg := "s" } false rfl rfl rfl rfl).1 rfl

/-- C3: for a non-scroll record passing the filter, when the Scroll-Active
Flag is true the record gets the back-reference to its handler, is appended
to the pending queue with the monitor notified and the notified flag set,
and nothing is written to the console; when the flag is false the record is
written directly to the console. -/
theorem interrupt_router (dm : Bool) (st : LogState) (r : Record)
    (hlvl : r.levelno ≠ ScrollableHandler.SCROLL)
    (hfil : outFilter dm r = true)
    (hemit : r.emitExc = none) :
    (st.scrollFlag = true →
      ScrollableHandler.handle dm st r =
        ({ st with pendingLogRecords := st.pendingLogRecords ++ [markHandled r]
                   notifiedMonitor := true }, none, true)) ∧
    (st.scrollFlag = false →
      ScrollableHandler.handle dm st r =
        ({ st with stdoutBuf := st.stdoutBuf ++ [r.msg] }, none, true)) := by
  constructor <;> intro hflag <;>
    simp [ScrollableHandler.handle, hfil, hflag, hlvl, queueScrollInterrupt,
          emitSynchronized, streamEmit, hemit]

/-- Witness for C3: a warning queued during a scroll session, and the same
warning written directly when no session is active. -/
theorem interrupt_router_witness :
    ScrollableHandler.handle false (scrollBegin (init freshState))
        { levelno := 30, msg := "w" } =
      ({ scrollBegin (init freshState) with
           pendingLogRecords := [{ levelno := 30, msg := "w", hasHandler := true }]
           notifiedMonitor := true }, none, true) ∧
    ScrollableHandler.handle false (init freshState) { levelno := 30, msg := "w" } =
      ({ init freshState with stdoutBuf := ["w"] }, none, true) :=
  ⟨(interrupt_router false (scrollBegin (init freshState))
      { levelno := 30, msg := "w" } (by decide) rfl rfl).1 rfl,
   (interrupt_router false (init freshState)
      { levelno := 30, msg := "w" } (by decide) rfl rfl).2 rfl⟩

/-- C9: the Interrupt Router's critical section is a fixed, bounded
sequence of five primitive operations, none of which is an unbounded
suspension (no untimed condition wait, no blocking scroll-lock
acquisition) and none of which writes to the console; correspondingly the
state transformer `queueScrollInterrupt` returns with both console streams
untouched, so a caller never waits for its message to appear on screen. -/
theorem router_bounded_nonblocking :
    (queueScrollInterruptOps.all fun op => !unboundedBlockingOp op) = true ∧
    (queueScrollInterruptOps.all fun op => !(op == PrimOp.emitToConsole)) = true ∧
    queueScrollInterruptOps.length = 5 ∧
    ∀ (st : LogState) (r : Record),
      (queueScrollInterrupt st r).stdoutBuf = st.stdoutBuf ∧
      (queueScrollInterrupt st r).stderrBuf = st.stderrBuf :=
  ⟨by decide, by decide, rfl, fun st r => ⟨rfl, rfl⟩⟩

/-- C8 (code evaluated at the failing input): a second call to init() is
not rejected; it succeeds, resets the shared coordination state, and starts
a second ScrollInterrupter thread, violating the single-consumer invariant
the specification demands. -/
theorem init_twice_starts_second_worker :
    init (init freshState) = { init freshState with workerCount := 2 } ∧
    (init (init freshState)).workerCount = 2 := by
  constructor <;> rfl

/-- C7 counterexample: with no scroll session active (the state right after
init), the first endScrollSession call succeeds, but an immediately
repeated call raises AttributeError because the scroll lock attribute has
already been deleted -- calling it twice is not the same as calling it
once, and it is not an error-free no-op. -/
theorem scrollEnd_twice_raises :
    (scrollEnd (init freshState)).2 = none ∧
    (scrollEnd (scrollEnd (init freshState)).1).2 = some PyError.attributeError := by
  constructor <;> rfl

/-- C7 amended: endScrollSession always clears the Scroll-Active Flag; when
the scroll lock attribute still exists it deletes it and returns normally,
and when the attribute has already been deleted (no session was ever begun
since the last deletion) it raises AttributeError after clearing the flag. -/
theorem scrollEnd_spec (st : LogState) :
    (st.scrollLockAttr ≠ ScrollLockAttr.deleted →
      scrollEnd st =
        ({ st with scrollFlag := false, scrollLockAttr := ScrollLockAttr.deleted },
         none)) ∧
    (st.scrollLockAttr = ScrollLockAttr.deleted →
      scrollEnd st = ({ st with scrollFlag := false }, some PyError.attributeError)) := by
  constructor <;> intro h <;>
    cases hattr : st.scrollLockAttr <;> simp_all [scrollEnd]

/-- Witness for C7's amended statement: ending the session begun by
scrollBegin succeeds; ending again raises. -/
theorem scrollEnd_spec_witness :
    scrollEnd (scrollBegin (init freshState)) =
      ({ scrollBegin (init freshState) with
           scrollFlag := false, scrollLockAttr := ScrollLockAttr.deleted }, none) ∧
    scrollEnd { scrollBegin (init freshState) with
                  scrollFlag := false, scrollLockAttr := ScrollLockAttr.deleted } =
      ({ scrollBegin (init freshState) with
           scrollFlag := false, scrollLockAttr := ScrollLockAttr.deleted },
       some PyError.attributeError) :=
  ⟨(scrollEnd_spec (scrollBegin (init freshState))).1 (by decide),
   (scrollEnd_spec { scrollBegin (init freshState) with
                       scrollFlag := false,
                       scrollLockAttr := ScrollLockAttr.deleted }).2 rfl⟩

lemma interruptFormatMsgs_true (rs : List Record) :
    interruptFormatMsgs true rs = rs.map (fun x => x.msg ++ "\n\n") := by
  induction rs with
  | nil => rfl
  | cons r rs ih => simp [interruptFormatMsgs, ih]

lemma interruptFormatMsgs_length (b : Bool) (rs : List Record) :
    (interruptFormatMsgs b rs).length = rs.length := by
  induction rs generalizing b with
  | nil => rfl
  | cons r rs ih => simp [interruptFormatMsgs, ih]

/-- C6 counterexample: an interruption episode whose first record receives
no leading blank lines.  Right after init and scrollBegin (no scroll record
has been written yet, so the interrupted flag is still true), a priority
record arrives and wakes the idle worker; the full episode emits it as
"hello\n\n" -- trailing blank lines only, no leading padding, contradicting
the unconditional formatting law. -/
theorem episode_first_record_unpadded :
    (waitLoopIter (scrollBegin (init freshState)) false
        { idleArrivals := [{ levelno := 20, msg := "hello" }],
          graceArrivals := [] }).1.stdoutBuf = ["hello\n\n"] ∧
    "hello\n\n" ≠ "\n\n\n\n" ++ "hello" ++ "\n\n" := by
  constructor
  · rfl
  · decide

/-- C6 amended: the first record of an interruption episode is padded with
leading blank lines exactly when the Interrupted Flag is false when the
batch is drained (i.e. a scroll record has been written since the last
interruption); when the flag is already true the first record, like every
subsequent record of the episode, receives only trailing blank lines.
Subsequent records are never given leading padding, and draining a
non-empty batch always leaves the flag true. -/
theorem episode_formatting (st : LogState) (r : Record) (rs : List Record)
    (hok : ∀ x ∈ r :: rs, x.emitExc = none ∧ x.hasHandler = true) :
    (st.scrollInterrupted = false →
      (drainBatch st (r :: rs)).1.stdoutBuf =
        st.stdoutBuf ++ ("\n\n\n\n" ++ r.msg ++ "\n\n")
          :: rs.map (fun x => x.msg ++ "\n\n")) ∧
    (st.scrollInterrupted = true →
      (drainBatch st (r :: rs)).1.stdoutBuf =
        st.stdoutBuf ++ (r.msg ++ "\n\n") :: rs.map (fun x => x.msg ++ "\n\n")) ∧
    (drainBatch st (r :: rs)).1.scrollInterrupted = true := by
  rw [drainBatch_ok st (r :: rs) hok]
  refine ⟨fun h => ?_, fun h => ?_, by simp⟩ <;>
    simp [h, interruptFormatMsgs, interruptFormatMsgs_true]

/-- Witness for C6's amended statement: a two-record batch drained once
with the flag clear (first record padded) and once with it set (no
padding). -/
theorem episode_formatting_witness :
    (drainBatch { scrollBegin (init freshState) with scrollInterrupted := false }
        [{ levelno := 20, msg := "a", hasHandler := true },
         { levelno := 30, msg := "b", hasHandler := true }]).1.stdoutBuf =
      ["\n\n\n\n" ++ "a" ++ "\n\n", "b" ++ "\n\n"] ∧
    (drainBatch (scrollBegin (init freshState))
        [{ levelno := 20, msg := "a", hasHandler := true },
         { levelno := 30, msg := "b", hasHandler := true }]).1.stdoutBuf =
      ["a" ++ "\n\n", "b" ++ "\n\n"] := by
  constructor
  · have h := (episode_formatting
        { scrollBegin (init freshState) with scrollInterrupted := false }
        { levelno := 20, msg := "a", hasHandler := true }
        [{ levelno := 30, msg := "b", hasHandler := true }] (by decide)).1 rfl
    simpa using h
  · have h := (episode_formatting (scrollBegin (init freshState))
        { levelno := 20, msg := "a", hasHandler := true }
        [{ levelno := 30, msg := "b", hasHandler := true }] (by decide)).2.1 rfl
    simpa using h

lemma waitLoopIter_fresh_continue (st : LogState) (inp : IterInput) (b : Bool)
    (hsd : st.shutdown = false)
    (hlock : st.scrollLockAttr = ScrollLockAttr.lock b)
    (hok : ∀ r ∈ st.pendingLogRecords, r.emitExc = none ∧ r.hasHandler = true)
    (hokIdle : ∀ r ∈ inp.idleArrivals, r.emitExc = none)
    (hg : inp.graceArrivals ≠ []) :
    waitLoopIter st false inp =
      ({ st with
           pendingLogRecords := inp.graceArrivals.map markHandled
           notifiedMonitor := false
           pendingMutexHeld := true
           scrollLockAttr := ScrollLockAttr.lock true
           scrollInterrupted := st.scrollInterrupted
             || !(st.pendingLogRecords ++ inp.idleArrivals.map markHandled).isEmpty
           stdoutBuf := st.stdoutBuf ++ interruptFormatMsgs st.scrollInterrupted
             (st.pendingLogRecords ++ inp.idleArrivals.map markHandled) },
       true, none) := by
  have hok' : ∀ r ∈ st.pendingLogRecords ++ inp.idleArrivals.map markHandled,
      r.emitExc = none ∧ r.hasHandler = true := by
    intro r hr
    rcases List.mem_append.mp hr with h | h
    · exact hok r h
    · rcases List.mem_map.mp h with ⟨x, hx, rfl⟩
      exact ⟨hokIdle x hx, rfl⟩
  have hge : inp.graceArrivals.isEmpty = false := by
    cases h : inp.graceArrivals with
    | nil => exact absurd h hg
    | cons a l => rfl
  simp [waitLoopIter, wait_spec, hsd, applyArrivals_spec, hlock,
        drainBatch_ok _ _ hok', hge]

lemma waitLoopRun_all_continue (inps : List IterInput) (st : LogState)
    (hsd : st.shutdown = false)
    (hlock : st.scrollLockAttr = ScrollLockAttr.lock true)
    (hok : ∀ r ∈ st.pendingLogRecords, r.emitExc = none ∧ r.hasHandler = true)
    (hinps : ∀ i ∈ inps, i.graceArrivals ≠ [] ∧ ∀ r ∈ i.graceArrivals, r.emitExc = none) :
    (waitLoopRun st true inps).2.2 = none ∧
    (waitLoopRun st true inps).2.1 = true ∧
    (waitLoopRun st true inps).1.scrollLockAttr = ScrollLockAttr.lock true ∧
    (waitLoopRun st true inps).1.pendingMutexHeld = (if inps.isEmpty then st.pendingMutexHeld else true) ∧
    (waitLoopRun st true inps).1.shutdown = false ∧
    (∀ r ∈ (waitLoopRun st true inps).1.pendingLogRecords,
       r.emitExc = none ∧ r.hasHandler = true) := by
  induction inps generalizing st with
  | nil => exact ⟨rfl, rfl, hlock, by simp [waitLoopRun], hsd, hok⟩
  | cons i inps ih =>
      obtain ⟨hg, hgr⟩ := hinps i (List.mem_cons_self i inps)
      have hinps' : ∀ j ∈ inps, j.graceArrivals ≠ [] ∧
          ∀ r ∈ j.graceArrivals, r.emitExc = none := by
        intro j hj
        exact hinps j (List.mem_cons_of_mem i hj)
      have hstep := waitLoopIter_continue st i hsd hok hg
      have hok2 : ∀ r ∈ i.graceArrivals.map markHandled,
          r.emitExc = none ∧ r.hasHandler = true := by
        intro r hr
        rcases List.mem_map.mp hr with ⟨x, hx, rfl⟩
        exact ⟨hgr x hx, rfl⟩
      have := ih ({ st with
           pendingLogRecords := i.graceArrivals.map markHandled
           notifiedMonitor := false
           pendingMutexHeld := true
           scrollInterrupted := st.scrollInterrupted || !st.pendingLogRecords.isEmpty
           stdoutBuf := st.stdoutBuf
             ++ interruptFormatMsgs st.scrollInterrupted st.pendingLogRecords })
        hsd hlock hok2 hinps'
      simp only [waitLoopRun, hstep]
      rcases this with ⟨h1, h2, h3, h4, h5, h6⟩
      refine ⟨h1, h2, h3, ?_, h5, h6⟩
      rw [h4, List.isEmpty_cons]
      cases inps.isEmpty <;> rfl

/-- C2: the debounce law.  From a draining state (scroll lock and pending
mutex held by the worker): if records arrive during the grace wait the
iteration keeps both the scroll lock and the pending mutex, sets
hadQuickWait, and the episode continues (first conjunct; iterating this,
third conjunct, the lock is held across any run of such iterations); if no
record arrives before the grace timeout, the pending mutex and the scroll
lock are both released and the episode ends (second conjunct); a record
arriving after that wakes the idle worker, which re-acquires the scroll
lock and emits it in a new episode (fourth conjunct). -/
theorem debounce_law (st : LogState) (inp : IterInput)
    (hsd : st.shutdown = false)
    (hlock : st.scrollLockAttr = ScrollLockAttr.lock true)
    (hnot : st.notifiedMonitor = false)
    (hok : ∀ r ∈ st.pendingLogRecords, r.emitExc = none ∧ r.hasHandler = true) :
    (inp.graceArrivals ≠ [] →
      waitLoopIter st true inp =
        ({ st with
             pendingLogRecords := inp.graceArrivals.map markHandled
             notifiedMonitor := false
             pendingMutexHeld := true
             scrollInterrupted := st.scrollInterrupted || !st.pendingLogRecords.isEmpty
             stdoutBuf := st.stdoutBuf
               ++ interruptFormatMsgs st.scrollInterrupted st.pendingLogRecords },
         true, none)) ∧
    (inp.graceArrivals = [] →
      waitLoopIter st true inp =
        ({ st with
             pendingLogRecords := []
             pendingMutexHeld := false
             scrollLockAttr := ScrollLockAttr.lock false
             scrollInterrupted := st.scrollInterrupted || !st.pendingLogRecords.isEmpty
             stdoutBuf := st.stdoutBuf
               ++ interruptFormatMsgs st.scrollInterrupted st.pendingLogRecords },
         false, none)) ∧
    (∀ inps : List IterInput,
      (∀ i ∈ inps, i.graceArrivals ≠ [] ∧ ∀ r ∈ i.graceArrivals, r.emitExc = none) →
      (waitLoopRun st true inps).2.2 = none ∧
      (waitLoopRun st true inps).2.1 = true ∧
      (waitLoopRun st true inps).1.scrollLockAttr = ScrollLockAttr.lock true) ∧
    (∀ (st2 : LogState) (inp2 : IterInput),
      st2.shutdown = false →
      st2.scrollLockAttr = ScrollLockAttr.lock false →
      (∀ r ∈ st2.pendingLogRecords, r.emitExc = none ∧ r.hasHandler = true) →
      (∀ r ∈ inp2.idleArrivals, r.emitExc = none) →
      inp2.graceArrivals ≠ [] →
      (waitLoopIter st2 false inp2).2.2 = none ∧
      (waitLoopIter st2 false inp2).2.1 = true ∧
      (waitLoopIter st2 false inp2).1.scrollLockAttr = ScrollLockAttr.lock true ∧
      (waitLoopIter st2 false inp2).1.stdoutBuf = st2.stdoutBuf
        ++ interruptFormatMsgs st2.scrollInterrupted
             (st2.pendingLogRecords ++ inp2.idleArrivals.map markHandled)) := by
  refine ⟨fun hg => waitLoopIter_continue st inp hsd hok hg,
          fun hg => waitLoopIter_release st inp hsd hlock hnot hok hg,
          fun inps hinps => ?_,
          fun st2 inp2 hsd2 hlock2 hok2 hidle2 hg2 => ?_⟩
  · obtain ⟨h1, h2, h3, _, _, _⟩ := waitLoopRun_all_continue inps st hsd hlock hok hinps
    exact ⟨h1, h2, h3⟩
  · rw [waitLoopIter_fresh_continue st2 inp2 false hsd2 hlock2 hok2 hidle2 hg2]
    exact ⟨rfl, rfl, rfl, rfl⟩

/-- Witness for C2: both debounce branches at a concrete draining state. -/
theorem debounce_law_witness :
    waitLoopIter
        { scrollFlag := true, scrollInterrupted := true,
          scrollLockAttr := ScrollLockAttr.lock true,
          pendingLogRecords := [{ levelno := 20, msg := "p", hasHandler := true }],
          notifiedMonitor := false, pendingMutexHeld := true, shutdown := false,
          stdoutBuf := [], stderrBuf := [], workerCount := 1 }
        true { idleArrivals := [], graceArrivals := [{ levelno := 30, msg := "q" }] } =
      ({ scrollFlag := true, scrollInterrupted := true,
         scrollLockAttr := ScrollLockAttr.lock true,
         pendingLogRecords := [{ levelno := 30, msg := "q", hasHandler := true }],
         notifiedMonitor := false, pendingMutexHeld := true, shutdown := false,
         stdoutBuf := ["p\n\n"], stderrBuf := [], workerCount := 1 },
       true, none) := by
  have h := (debounce_law
      { scrollFlag := true, scrollInterrupted := true,
        scrollLockAttr := ScrollLockAttr.lock true,
        pendingLogRecords := [{ levelno := 20, msg := "p", hasHandler := true }],
        notifiedMonitor := false, pendingMutexHeld := true, shutdown := false,
        stdoutBuf := [], stderrBuf := [], workerCount := 1 }
      { idleArrivals := [], graceArrivals := [{ levelno := 30, msg := "q" }] }
      rfl rfl rfl (by decide)).1 (by decide)
  simpa [markHandled, interruptFormatMsgs] using h

/-- C5: priority records queued during a scroll session are emitted exactly
once each, in enqueue order, batch after batch: over an episode that drains
the current queue, then the records that arrived during the grace wait,
then ends, the console receives exactly one formatted line per queued
record (the two length conjuncts), in queue order within each batch, with
the earlier batch printed before the later one, and the queue is left
empty (nothing is emitted twice or dropped). -/
theorem priority_records_once_in_order (st : LogState) (g1 : List Record)
    (hsd : st.shutdown = false)
    (hlock : st.scrollLockAttr = ScrollLockAttr.lock true)
    (hok : ∀ r ∈ st.pendingLogRecords, r.emitExc = none ∧ r.hasHandler = true)
    (hok1 : ∀ r ∈ g1, r.emitExc = none)
    (hne : g1 ≠ []) :
    (waitLoopRun st true
        [{ idleArrivals := [], graceArrivals := g1 },
         { idleArrivals := [], graceArrivals := [] }]).2.2 = none ∧
    (waitLoopRun st true
        [{ idleArrivals := [], graceArrivals := g1 },
         { idleArrivals := [], graceArrivals := [] }]).1.stdoutBuf =
      st.stdoutBuf ++ interruptFormatMsgs st.scrollInterrupted st.pendingLogRecords
        ++ interruptFormatMsgs (st.scrollInterrupted || !st.pendingLogRecords.isEmpty)
             (g1.map markHandled) ∧
    (waitLoopRun st true
        [{ idleArrivals := [], graceArrivals := g1 },
         { idleArrivals := [], graceArrivals := [] }]).1.pendingLogRecords = [] ∧
    (interruptFormatMsgs st.scrollInterrupted st.pendingLogRecords).length
      = st.pendingLogRecords.length ∧
    (interruptFormatMsgs (st.scrollInterrupted || !st.pendingLogRecords.isEmpty)
       (g1.map markHandled)).length = g1.length := by
  have hok2 : ∀ r ∈ g1.map markHandled, r.emitExc = none ∧ r.hasHandler = true := by
    intro r hr
    rcases List.mem_map.mp hr with ⟨x, hx, rfl⟩
    exact ⟨hok1 x hx, rfl⟩
  have h1 := waitLoopIter_continue st { idleArrivals := [], graceArrivals := g1 }
    hsd hok hne
  have h2 := waitLoopIter_release
    ({ st with
         pendingLogRecords := g1.map markHandled
         notifiedMonitor := false
         pendingMutexHeld := true
         scrollInterrupted := st.scrollInterrupted || !st.pendingLogRecords.isEmpty
         stdoutBuf := st.stdoutBuf
           ++ interruptFormatMsgs st.scrollInterrupted st.pendingLogRecords })
    { idleArrivals := [], graceArrivals := [] } hsd hlock rfl hok2 rfl
  simp only [waitLoopRun, h1, h2]
  refine ⟨trivial, ?_, trivial, interruptFormatMsgs_length _ _, ?_⟩
  · simp [List.append_assoc]
  · rw [interruptFormatMsgs_length, List.length_map]

/-- Witness for C5: one pending record and one grace arrival, emitted as
exactly two lines in order. -/
theorem priority_records_once_in_order_witness :
    (waitLoopRun
        { scrollFlag := true, scrollInterrupted := false,
          scrollLockAttr := ScrollLockAttr.lock true,
          pendingLogRecords := [{ levelno := 20, msg := "p", hasHandler := true }],
          notifiedMonitor := false, pendingMutexHeld := true, shutdown := false,
          stdoutBuf := [], stderrBuf := [], workerCount := 1 }
        true
        [{ idleArrivals := [], graceArrivals := [{ levelno := 30, msg := "q" }] },
         { idleArrivals := [], graceArrivals := [] }]).1.stdoutBuf =
      ["\n\n\n\n" ++ "p" ++ "\n\n", "q" ++ "\n\n"] := by
  have h := (priority_records_once_in_order
      { scrollFlag := true, scrollInterrupted := false,
        scrollLockAttr := ScrollLockAttr.lock true,
        pendingLogRecords := [{ levelno := 20, msg := "p", hasHandler := true }],
        notifiedMonitor := false, pendingMutexHeld := true, shutdown := false,
        stdoutBuf := [], stderrBuf := [], workerCount := 1 }
      [{ levelno := 30, msg := "q" }]
      rfl rfl (by decide) (by decide) (by decide)).2.1
  simpa [interruptFormatMsgs, markHandled] using h

lemma drainBatch_caught (st : LogState) (recs : List Record)
    (hok : ∀ r ∈ recs, r.hasHandler = true ∧ r.emitExc ≠ some PyError.systemExit) :
    drainBatch st recs =
      ({ st with
           stdoutBuf := st.stdoutBuf ++ drainStdoutMsgs st.scrollInterrupted recs
           stderrBuf := st.stderrBuf ++ drainStderrMsgs recs
           scrollInterrupted := st.scrollInterrupted || !recs.isEmpty }, none) := by
  induction recs generalizing st with
  | nil => simp [drainBatch, drainStdoutMsgs, drainStderrMsgs]
  | cons r rs ih =>
      obtain ⟨hh, hexc⟩ := hok r (List.mem_cons_self r rs)
      have hok' : ∀ x ∈ rs, x.hasHandler = true ∧ x.emitExc ≠ some PyError.systemExit := by
        intro x hx
        exact hok x (List.mem_cons_of_mem r hx)
      cases he : r.emitExc with
      | none =>
          cases hflag : st.scrollInterrupted <;>
            simp [drainBatch, ScrollInterrupter.handleRecord, ScrollInterrupter.format,
                  streamEmit, hh, he, hflag, ih _ hok', drainStdoutMsgs, drainStderrMsgs]
      | some e =>
          rw [he] at hexc
          cases e with
          | systemExit => exact absurd rfl hexc
          | attributeError =>
              cases hflag : st.scrollInterrupted <;>
                simp [drainBatch, ScrollInterrupter.handleRecord, ScrollInterrupter.format,
                      streamEmit, hh, he, hflag, ih _ hok', drainStdoutMsgs, drainStderrMsgs]
          | nameError =>
              cases hflag : st.scrollInterrupted <;>
                simp [drainBatch, ScrollInterrupter.handleRecord, ScrollInterrupter.format,
                      streamEmit, hh, he, hflag, ih _ hok', drainStdoutMsgs, drainStderrMsgs]
          | otherError m =>
              cases hflag : st.scrollInterrupted <;>
                simp [drainBatch, ScrollInterrupter.handleRecord, ScrollInterrupter.format,
                      streamEmit, hh, he, hflag, ih _ hok', drainStdoutMsgs, drainStderrMsgs]

/-- C4: an unexpected error raised while emitting a queued record is caught
per record inside the emission (StreamHandler.emit's bare except routes it
to handleError, which prints the traceback to standard error and returns),
so the drain loop continues with the remaining records and the iteration
completes normally -- the worker loop stays alive (first conjunct, whose
result carries no exception and one stderr traceback per failing record);
the worker thread ends only under explicit shutdown, where checkShutdown's
SystemExit is passed silently by run() (second conjunct). -/
theorem worker_emit_error_handling (st : LogState) (inp : IterInput)
    (hsd : st.shutdown = false)
    (hlock : st.scrollLockAttr = ScrollLockAttr.lock true)
    (hnot : st.notifiedMonitor = false)
    (hok : ∀ r ∈ st.pendingLogRecords,
       r.hasHandler = true ∧ r.emitExc ≠ some PyError.systemExit)
    (hg : inp.graceArrivals = []) :
    waitLoopIter st true inp =
      ({ st with
           pendingLogRecords := []
           pendingMutexHeld := false
           scrollLockAttr := ScrollLockAttr.lock false
           scrollInterrupted := st.scrollInterrupted || !st.pendingLogRecords.isEmpty
           stdoutBuf := st.stdoutBuf ++ drainStdoutMsgs st.scrollInterrupted st.pendingLogRecords
           stderrBuf := st.stderrBuf ++ drainStderrMsgs st.pendingLogRecords },
       false, none) ∧
    (∀ (st2 : LogState) (inps2 : List IterInput), st2.shutdown = true →
       ScrollInterrupter.run st2 inps2 = st2) := by
  constructor
  · simp [waitLoopIter, hsd, drainBatch_caught _ _ hok, applyArrivals_spec, hg,
          hnot, hlock]
  · intro st2 inps2 h2
    cases inps2 with
    | nil => simp [ScrollInterrupter.run, waitLoopRun]
    | cons i is =>
        have hiter : waitLoopIter st2 false i = (st2, false, some PyError.systemExit) := by
          simp [waitLoopIter, h2]
        simp [ScrollInterrupter.run, waitLoopRun, hiter]

/-- Witness for C4: a queue holding a record whose console write raises,
followed by a good record; the iteration completes without an exception,
the traceback "boom" lands on standard error, and the good record is still
emitted to standard output. -/
theorem worker_emit_error_handling_witness :
    waitLoopIter
        { scrollFlag := true, scrollInterrupted := true,
          scrollLockAttr := ScrollLockAttr.lock true,
          pendingLogRecords :=
            [{ levelno := 20, msg := "a", hasHandler := true,
               emitExc := some (PyError.otherError "boom") },
             { levelno := 20, msg := "b", hasHandler := true }],
          notifiedMonitor := false, pendingMutexHeld := true, shutdown := false,
          stdoutBuf := [], stderrBuf := [], workerCount := 1 }
        true { idleArrivals := [], graceArrivals := [] } =
      ({ scrollFlag := true, scrollInterrupted := true,
         scrollLockAttr := ScrollLockAttr.lock false,
         pendingLogRecords := [],
         notifiedMonitor := false, pendingMutexHeld := false, shutdown := false,
         stdoutBuf := ["b\n\n"], stderrBuf := ["boom"], workerCount := 1 },
       false, none) := by
  have h := (worker_emit_error_handling
      { scrollFlag := true, scrollInterrupted := true,
        scrollLockAttr := ScrollLockAttr.lock true,
        pendingLogRecords :=
          [{ levelno := 20, msg := "a", hasHandler := true,
             emitExc := some (PyError.otherError "boom") },
           { levelno := 20, msg := "b", hasHandler := true }],
        notifiedMonitor := false, pendingMutexHeld := true, shutdown := false,
        stdoutBuf := [], stderrBuf := [], workerCount := 1 }
      { idleArrivals := [], graceArrivals := [] }
      rfl rfl rfl (by decide) rfl).1
  simpa [drainStdoutMsgs, drainStderrMsgs, tracebackText] using h

lemma handleRecord_interrupted_mono (st : LogState) (r : Record)
    (h : st.scrollInterrupted = true) :
    (ScrollInterrupter.handleRecord st r).1.scrollInterrupted = true := by
  unfold ScrollInterrupter.handleRecord ScrollInterrupter.format streamEmit
  cases hh : r.hasHandler
  · simp [h, hh]
  · cases he : r.emitExc with
    | none => simp [h, hh, he]
    | some e => cases e <;> simp [h, hh, he]

lemma drainBatch_interrupted_mono : ∀ (recs : List Record) (st : LogState),
    st.scrollInterrupted = true → (drainBatch st recs).1.scrollInterrupted = true
  | [], _, h => h
  | r :: rs, st, h => by
      unfold drainBatch
      rcases hres : ScrollInterrupter.handleRecord st r with ⟨st', e⟩
      have h' : st'.scrollInterrupted = true := by
        have hm := handleRecord_interrupted_mono st r h
        rw [hres] at hm
        exact hm
      cases e with
      | none => simpa using drainBatch_interrupted_mono rs st' h'
      | some e => simpa using h'

lemma applyArrivals_interrupted (st : LogState) (rs : List Record) :
    (applyArrivals st rs).scrollInterrupted = st.scrollInterrupted := by
  rw [applyArrivals_spec]

lemma waitLoopIter_interrupted_mono (st : LogState) (hqw : Bool) (inp : IterInput)
    (h : st.scrollInterrupted = true) :
    (waitLoopIter st hqw inp).1.scrollInterrupted = true := by
  unfold waitLoopIter
  by_cases hsd : st.shutdown = true
  · simp [hsd, h]
  · rw [Bool.not_eq_true] at hsd
    have hphase2 : ∀ st1 : LogState, st1.scrollInterrupted = true →
        (match drainBatch { st1 with pendingLogRecords := [] } st1.pendingLogRecords with
         | (st, some e) => (st, false, some e)
         | (st, none) =>
           let st := { st with pendingMutexHeld := false }
           let st := applyArrivals st inp.graceArrivals
           let st := { st with pendingMutexHeld := true }
           if st.notifiedMonitor then
             ({ st with notifiedMonitor := false }, true, none)
           else
             match st.scrollLockAttr with
             | ScrollLockAttr.lock _ =>
                 ({ st with pendingMutexHeld := false,
                            scrollLockAttr := ScrollLockAttr.lock false }, false, none)
             | _ => ({ st with pendingMutexHeld := false }, false,
                     some PyError.attributeError) : LogState × Bool × Option PyError).1.scrollInterrupted = true := by
      intro st1 h1
      rcases hd : drainBatch { st1 with pendingLogRecords := [] } st1.pendingLogRecords
        with ⟨st2, e2⟩
      have h2 : st2.scrollInterrupted = true := by
        have hm := drainBatch_interrupted_mono st1.pendingLogRecords
          { st1 with pendingLogRecords := [] } h1
        rw [hd] at hm
        exact hm
      have h3 := applyArrivals_interrupted { st2 with pendingMutexHeld := false }
        inp.graceArrivals
      cases e2 with
      | some e => simpa using h2
      | none =>
          simp only
          rcases ha : applyArrivals { st2 with pendingMutexHeld := false }
            inp.graceArrivals with st3
          rw [ha] at h3
          have h4 : st3.scrollInterrupted = true := by
            rw [h3]; exact h2
          by_cases hn : st3.notifiedMonitor = true
          · simp [hn, h4]
          · rw [Bool.not_eq_true] at hn
            cases hattr : st3.scrollLockAttr <;> simp [hn, hattr, h4]
    cases hqw with
    | true => simpa [hsd] using hphase2 st h
    | false =>
        have hw : (ScrollInterrupter.wait st inp.idleArrivals).scrollInterrupted = true := by
          rw [wait_spec]
          exact h
        rcases hwa : ScrollInterrupter.wait st inp.idleArrivals with st1
        rw [hwa] at hw
        cases hattr : st1.scrollLockAttr with
        | lock b =>
            simpa [hsd, hwa, hattr] using
              hphase2 { st1 with scrollLockAttr := ScrollLockAttr.lock true,
                                 pendingMutexHeld := true } (by simpa using hw)
        | deleted => simp [hsd, hwa, hattr, hw]
        | pyNone => simp [hsd, hwa, hattr, hw]

lemma stepEvent_interrupted (st : LogState) (e : LogEvent)
    (h : st.scrollInterrupted = true)
    (hg : scrollGateAcquires st e = false) :
    (stepEvent st e).scrollInterrupted = true := by
  cases e with
  | callerLog dm r =>
      unfold stepEvent ScrollableHandler.handle
      by_cases hf : outFilter dm r = true
      · by_cases hlvl : (r.levelno == ScrollableHandler.SCROLL) = true
        · have hattr : (st.scrollLockAttr == ScrollLockAttr.lock false) = false := by
            simpa [scrollGateAcquires, hf, hlvl] using hg
          cases ha : st.scrollLockAttr with
          | lock b =>
              cases b with
              | false => rw [ha] at hattr; simp at hattr
              | true => simp [hf, hlvl, ha, h]
          | pyNone => simp [hf, hlvl, ha, h]
          | deleted => simp [hf, hlvl, ha, h]
        · by_cases hsf : st.scrollFlag = true
          · simp [hf, hlvl, hsf, queueScrollInterrupt, h]
          · cases he : r.emitExc with
            | none => simp [hf, hlvl, hsf, emitSynchronized, streamEmit, he, h]
            | some e =>
                cases e <;> simp [hf, hlvl, hsf, emitSynchronized, streamEmit, he, h]
      · simp [hf, h]
  | workerIter hqw inp =>
      simpa [stepEvent] using waitLoopIter_interrupted_mono st hqw inp h
  | beginScroll => simpa [stepEvent, scrollBegin] using h
  | endScroll =>
      unfold stepEvent scrollEnd
      cases ha : st.scrollLockAttr <;> simp [ha, h]

lemma runEvents_interrupted : ∀ (es : List LogEvent) (st : LogState),
    st.scrollInterrupted = true → noScrollWrite st es = true →
    (runEvents st es).scrollInterrupted = true
  | [], _, h, _ => h
  | e :: es, st, h, hns => by
      simp only [noScrollWrite, Bool.and_eq_true, Bool.not_eq_true'] at hns
      simp only [runEvents, List.foldl_cons]
      exact runEvents_interrupted es (stepEvent st e)
        (stepEvent_interrupted st e h hns.1) hns.2

/-- C10: after init() the Interrupted Flag is true (first conjunct), so an
interrupting record formatted in any flag-true state receives only the two
trailing blank lines and no leading padding (second conjunct); along any
sequence of caller, worker or session-boundary events in which no
scroll-level record passes the gate's lock acquisition, the flag remains
true -- leading padding can first occur only after a scroll record has
acquired the free scroll lock and been written (third conjunct), which is
the one operation that clears the flag (fourth conjunct). -/
theorem interrupted_flag_starts_true (st : LogState) (r : Record) (es : List LogEvent)
    (hst : st.scrollInterrupted = true)
    (hns : noScrollWrite st es = true) :
    (init freshState).scrollInterrupted = true ∧
    (ScrollInterrupter.format st r).2.msg = r.msg ++ "\n\n" ∧
    (runEvents st es).scrollInterrupted = true ∧
    (∀ (dm : Bool) (st1 : LogState) (s : Record),
       s.levelno = ScrollableHandler.SCROLL →
       st1.scrollLockAttr = ScrollLockAttr.lock false →
       s.emitExc = none →
       (ScrollableHandler.handle dm st1 s).1.scrollInterrupted = false) := by
  refine ⟨rfl, ?_, runEvents_interrupted es st hst hns, ?_⟩
  · simp [ScrollInterrupter.format, hst]
  · intro dm st1 s hlvl hlock hexc
    simp [ScrollableHandler.handle, outFilter, hlvl, hlock, hexc,
          emitSynchronized, streamEmit, ScrollableHandler.SCROLL,
          WARNING_LEVEL, DEBUG_LEVEL]

/-- Witness for C10: starting from the state produced by init(), beginning
a session and letting the worker emit one interrupting record keeps the
flag true (no scroll record has passed the gate in that trace). -/
theorem interrupted_flag_starts_true_witness :
    (init freshState).scrollInterrupted = true ∧
    (ScrollInterrupter.format (init freshState) { levelno := 20, msg := "x" }).2.msg
      = "x" ++ "\n\n" ∧
    (runEvents (init freshState)
       [LogEvent.beginScroll,
        LogEvent.workerIter false
          { idleArrivals := [{ levelno := 20, msg := "x" }],
            graceArrivals := [] }]).scrollInterrupted = true := by
  have h := interrupted_flag_starts_true (init freshState) { levelno := 20, msg := "x" }
    [LogEvent.beginScroll,
     LogEvent.workerIter false
       { idleArrivals := [{ levelno := 20, msg := "x" }], graceArrivals := [] }]
    rfl (by decide)
  exact ⟨h.1, h.2.1, h.2.2.1⟩

end Hellanzb











